import Mathlib

/-!
Formal model of the `hyprwall` core (power policy, encoder selection,
optimization cache, process supervisor state) as a shallow embedding of
the Python sources in `src/hyprwall/core`, with theorems checking the
natural-language specification against that embedding.

Conventions:
* Python `str` values are modelled as Lean `String` (or `List Char` where
  character-level reasoning is needed).
* Python `int` is modelled as `Int` (or `Nat` for values that are
  non-negative by construction), Python timestamps (`time.time()` floats)
  as `Rat`.
* Python `None`-able values are modelled as `Option`.
* Effectful reads (filesystem, process table, subprocess output) are
  modelled as explicit oracle parameters; raised exceptions as `Except`.
-/

namespace Hyprwall

/-- Python truthiness of `a or b` for an optional string `a`:
`None` and the empty string are falsy. -/
def pyOrStr (a : Option String) (b : String) : String :=
  match a with
  | none => b
  | some s => if s = "" then b else s

/-! ## `core/power.py` : `PowerStatus` -/

/-- Model of `PowerStatus` dataclass: `on_ac : bool | None`, `percent : int | None`. -/
structure PowerStatus where
  on_ac : Option Bool
  percent : Option Int
deriving DecidableEq, Repr

/-! ## `core/policy.py` -/

/-- Model of `Hysteresis` dataclass with its default thresholds. -/
structure Hysteresis where
  eco_enter : Int
  eco_exit : Int
  strict_enter : Int
  strict_exit : Int
deriving DecidableEq, Repr

/-- The default `Hysteresis()` values from the dataclass definition. -/
def defaultHysteresis : Hysteresis :=
  { eco_enter := 40, eco_exit := 45, strict_enter := 20, strict_exit := 25 }

/-- Model of `choose_profile(st, last, h)` from `core/policy.py`, translated
branch by branch. -/
def choose_profile (st : PowerStatus) (last : Option String) (h : Hysteresis) : String :=
  -- `if st.on_ac is True: return "balanced"`
  if st.on_ac = some true then "balanced"
  else
    match st.percent with
    -- `if st.percent is None: return last or "balanced"`
    | none => pyOrStr last "balanced"
    | some p =>
      -- STRICT hysteresis
      if last = some "eco_strict" then
        if p > h.strict_exit then
          (if p < h.eco_enter then "eco" else "balanced")
        else "eco_strict"
      else if p ≤ h.strict_enter then "eco_strict"
      -- ECO hysteresis
      else if last = some "eco" then
        (if p > h.eco_exit then "balanced" else "eco")
      else if p ≤ h.eco_enter then "eco"
      else "balanced"

/-- Model of `should_switch(target, last, last_switch_at, cooldown_s, override_profile)`
from `core/policy.py`.  The call `time.time()` inside the function is
modelled by the explicit parameter `now`. -/
def should_switch (target last : String) (last_switch_at : Rat) (cooldown_s : Int)
    (override_profile : Option String) (now : Rat) : Bool :=
  if override_profile.isSome then false
  else if target = last then false
  else if last_switch_at > 0 ∧ now - last_switch_at < (cooldown_s : Rat) then false
  else true

/-! ## Theorems about the power policy -/

/-- Helper: the value of `choose_profile` on battery with a known percent. -/
theorem choose_profile_battery_form (h : Hysteresis) (p : Int) (last : Option String) :
    choose_profile ⟨some false, some p⟩ last h =
      (if last = some "eco_strict" then
        if p > h.strict_exit then
          (if p < h.eco_enter then "eco" else "balanced")
        else "eco_strict"
      else if p ≤ h.strict_enter then "eco_strict"
      else if last = some "eco" then
        (if p > h.eco_exit then "balanced" else "eco")
      else if p ≤ h.eco_enter then "eco"
      else "balanced") := by
  rfl

/-- C4 counterexample: with an unknown AC state (`on_ac = None`) and a known
battery percentage of 10, `choose_profile` returns `"eco_strict"`, not
`"balanced"`: an unknown AC state is *not* treated as plugged in. -/
theorem choose_profile_unknown_ac_not_balanced :
    choose_profile ⟨none, some 10⟩ none defaultHysteresis = "eco_strict" ∧
    "eco_strict" ≠ "balanced" := by
  constructor
  · rfl
  · decide

/-- C4 (amended): `choose_profile` returns `"balanced"` whenever `on_ac` is
`True`; an unknown AC state is treated like battery (it falls through to the
percentage logic); and whenever `on_ac` is not `True` and the percentage is
unknown, the result is `lastProfile`, or `"balanced"` when `lastProfile` is
`None` (or empty). -/
theorem choose_profile_ac_and_unknown_percent (st : PowerStatus)
    (last : Option String) (h : Hysteresis) :
    (st.on_ac = some true → choose_profile st last h = "balanced") ∧
    (st.on_ac ≠ some true → st.percent = none →
      choose_profile st last h = pyOrStr last "balanced") := by
  constructor
  · intro hac
    simp [choose_profile, hac]
  · intro hac hp
    simp [choose_profile, hac, hp]

/-- Witness for `choose_profile_ac_and_unknown_percent` at concrete inputs. -/
theorem choose_profile_ac_and_unknown_percent_witness :
    choose_profile ⟨some true, some 50⟩ (some "eco") defaultHysteresis = "balanced" ∧
    choose_profile ⟨some false, none⟩ (some "eco") defaultHysteresis = pyOrStr (some "eco") "balanced" := by
  refine ⟨?_, ?_⟩
  · exact (choose_profile_ac_and_unknown_percent ⟨some true, some 50⟩ (some "eco")
      defaultHysteresis).1 rfl
  · exact (choose_profile_ac_and_unknown_percent ⟨some false, none⟩ (some "eco")
      defaultHysteresis).2 (by decide) rfl

/-- C5: the eco dead band.  On battery with known percent `p` and
`lastProfile = "eco"`: for `strict_enter < p ≤ eco_exit` the result stays
`"eco"`; the result is `"balanced"` only when `p > eco_exit`.  Moreover,
iterating `choose_profile` over the percent sequence 41, 39, 41, 39 with the
default thresholds, feeding each output back as `last`, some consecutive
step keeps the same profile — it never switches on every single step. -/
theorem choose_profile_eco_hysteresis (h : Hysteresis) (p : Int) (last0 : Option String) :
    (h.strict_enter < p → p ≤ h.eco_exit →
      choose_profile ⟨some false, some p⟩ (some "eco") h = "eco") ∧
    (choose_profile ⟨some false, some p⟩ (some "eco") h = "balanced" → p > h.eco_exit) ∧
    (let r1 := choose_profile ⟨some false, some 41⟩ last0 defaultHysteresis
     let r2 := choose_profile ⟨some false, some 39⟩ (some r1) defaultHysteresis
     let r3 := choose_profile ⟨some false, some 41⟩ (some r2) defaultHysteresis
     let r4 := choose_profile ⟨some false, some 39⟩ (some r3) defaultHysteresis
     r2 = r1 ∨ r3 = r2 ∨ r4 = r3) := by
  refine ⟨?_, ?_, ?_⟩
  · intro h1 h2
    rw [choose_profile_battery_form]
    rw [if_neg (by decide), if_neg (by omega), if_pos rfl, if_neg (by omega)]
  · intro hres
    rw [choose_profile_battery_form, if_neg (by decide)] at hres
    by_contra hc
    push_neg at hc
    by_cases hs : p ≤ h.strict_enter
    · rw [if_pos hs] at hres
      exact absurd hres (by decide)
    · rw [if_neg hs, if_pos rfl, if_neg (by omega)] at hres
      exact absurd hres (by decide)
  · by_cases h0 : last0 = some "eco"
    · subst h0
      left
      rfl
    · have h1 : choose_profile ⟨some false, some 41⟩ last0 defaultHysteresis = "balanced" := by
        by_cases hs : last0 = some "eco_strict"
        · subst hs; rfl
        · rw [choose_profile_battery_form, if_neg hs, if_neg (by decide), if_neg h0,
            if_neg (by decide)]
      right; left
      rw [h1]
      rfl

/-- Witness for `choose_profile_eco_hysteresis` at concrete inputs. -/
theorem choose_profile_eco_hysteresis_witness :
    choose_profile ⟨some false, some 42⟩ (some "eco") defaultHysteresis = "eco" := by
  exact (choose_profile_eco_hysteresis defaultHysteresis 42 none).1 (by decide) (by decide)

/-- C6 counterexample: with `last_switch_at = 0`, `now = 5`,
`cooldown_s = 10`, no override and `target ≠ last`, the elapsed time
`now - last_switch_at = 5` is inside the cooldown window (`5 < 10`), yet
`should_switch` returns `true`: the cooldown is skipped whenever
`last_switch_at ≤ 0`. -/
theorem should_switch_zero_timestamp_counterexample :
    should_switch "eco" "balanced" 0 10 none 5 = true ∧
    (5 : Rat) - 0 < (10 : Int) := by
  constructor
  · rfl
  · norm_num

/-- C6 (amended): `should_switch` returns `false` if an override is set, or
if `target = last`, or if `last_switch_at > 0` and the cooldown window has
not elapsed; with no override and `target ≠ last` it returns `true` exactly
when `last_switch_at ≤ 0` (no positive switch timestamp recorded) or the
cooldown duration has elapsed. -/
theorem should_switch_gate (target last : String) (last_switch_at : Rat)
    (cooldown_s : Int) (override_profile : Option String) (now : Rat) :
    (override_profile.isSome →
      should_switch target last last_switch_at cooldown_s override_profile now = false) ∧
    (target = last →
      should_switch target last last_switch_at cooldown_s override_profile now = false) ∧
    (last_switch_at > 0 → now - last_switch_at < (cooldown_s : Rat) →
      should_switch target last last_switch_at cooldown_s override_profile now = false) ∧
    (override_profile = none → target ≠ last →
      (should_switch target last last_switch_at cooldown_s override_profile now = true ↔
        (last_switch_at ≤ 0 ∨ (cooldown_s : Rat) ≤ now - last_switch_at))) := by
  refine ⟨?_, ?_, ?_, ?_⟩
  · intro hov
    simp [should_switch, hov]
  · intro ht
    simp [should_switch, ht]
  · intro h1 h2
    unfold should_switch
    by_cases hov : override_profile.isSome
    · rw [if_pos hov]
    · rw [if_neg hov]
      by_cases ht : target = last
      · rw [if_pos ht]
      · rw [if_neg ht, if_pos ⟨h1, h2⟩]
  · intro hov ht
    subst hov
    unfold should_switch
    rw [if_neg (by simp), if_neg ht]
    by_cases hC : (last_switch_at > 0 ∧ now - last_switch_at < (cooldown_s : Rat))
    · rw [if_pos hC]
      simp only [Bool.false_eq_true, false_iff]
      rintro (hle | hel)
      · exact absurd hC.1 (not_lt_of_le hle)
      · exact absurd hC.2 (not_lt_of_le hel)
    · rw [if_neg hC]
      simp only [true_iff]
      rcases not_and_or.mp hC with hl | hd
      · exact Or.inl (le_of_not_lt hl)
      · exact Or.inr (le_of_not_lt hd)

/-- Witness for `should_switch_gate` at concrete inputs. -/
theorem should_switch_gate_witness :
    should_switch "eco" "balanced" 100 10 none 111 = true := by
  exact ((should_switch_gate "eco" "balanced" 100 10 none 111).2.2.2 rfl
    (by decide)).mpr (Or.inr (by norm_num))

/-! ## `core/optimize.py` : encoder selection -/

/-- The `Codec` literal type: `"h264" | "vp9" | "av1"`. -/
inductive Codec
  | h264
  | vp9
  | av1
deriving DecidableEq, Repr

/-- The `Encoder` literal type: `"auto" | "cpu" | "vaapi" | "nvenc"`. -/
inductive Encoder
  | auto
  | cpu
  | vaapi
  | nvenc
deriving DecidableEq, Repr

/-- The `CODEC_ENCODERS` codec → allowed encoders table from `core/optimize.py`. -/
def CODEC_ENCODERS : Codec → List Encoder
  | .h264 => [.cpu, .nvenc]
  | .vp9 => [.cpu]
  | .av1 => [.vaapi]

/-- Model of the output of `ffmpeg -hide_banner -encoders`: whether the
substrings `"h264_nvenc"` and `"av1_vaapi"` occur in it. -/
structure EncodersText where
  h264_nvenc : Bool
  av1_vaapi : Bool
deriving DecidableEq, Repr

/-- Model of the hardware probes: whether one of the `libcuda.so.1` paths
exists, and whether `/dev/dri/renderD128` exists. -/
structure HwEnv where
  cuda_lib : Bool
  renderD128 : Bool
deriving DecidableEq, Repr

/-- Model of `_has_nvenc(enc_txt)`. -/
def has_nvenc (txt : EncodersText) (hw : HwEnv) : Bool :=
  txt.h264_nvenc && hw.cuda_lib

/-- Model of `_has_av1_vaapi(enc_txt)`. -/
def has_av1_vaapi (txt : EncodersText) (hw : HwEnv) : Bool :=
  txt.av1_vaapi && hw.renderD128

/-- Model of `pick_encoder(requested, codec)` from `core/optimize.py`.  The call to
`_ffmpeg_encoders_text()` is modelled by `probe` (`.error` models
`CalledProcessError`); raising `RuntimeError` is modelled by `.error`. -/
def pick_encoder (requested : Encoder) (codec : Codec)
    (probe : Except Unit EncodersText) (hw : HwEnv) : Except String Encoder :=
  let allowed := CODEC_ENCODERS codec
  -- `if requested in ("cpu", "vaapi", "nvenc"):`
  if requested = .cpu ∨ requested = .vaapi ∨ requested = .nvenc then
    if requested ∈ allowed then .ok requested
    else .error "encoder not supported for codec (explicit request, no fallback)"
  -- `if requested != "auto": return "cpu"` (unreachable for the literal type)
  else if requested ≠ .auto then .ok .cpu
  else
    match probe with
    -- `except CalledProcessError: return "cpu"`
    | .error _ => .ok .cpu
    | .ok txt =>
      match codec with
      | .h264 => if .nvenc ∈ allowed ∧ has_nvenc txt hw then .ok .nvenc else .ok .cpu
      | .av1 =>
        if .vaapi ∈ allowed ∧ has_av1_vaapi txt hw then .ok .vaapi
        else .error "AV1 codec requires VAAPI hardware support (not available on this system)"
      | .vp9 => .ok .cpu

/-- C3: evaluating `pick_encoder` at the failing input.  When capability
probing raises `CalledProcessError` the function returns `"cpu"` for
*every* codec — including av1, whose allowed-encoder list does not contain
`"cpu"` — instead of failing as the spec requires for av1 with `"auto"`. -/
theorem pick_encoder_av1_auto_probe_error_returns_cpu :
    pick_encoder .auto .av1 (.error ()) ⟨true, true⟩ = .ok .cpu ∧
    Encoder.cpu ∉ CODEC_ENCODERS .av1 := by
  exact ⟨rfl, by decide⟩

/-! ## `core/runner.py` : persisted supervisor state and `stop()` -/

/-- Legacy single-monitor `RunState` (v1). -/
structure RunState where
  pid : Int
  pgid : Int
  monitor : String
  file : String
  needle : String
  mode : String
  started_at : Rat
deriving DecidableEq, Repr

/-- Per-monitor `MonitorRunState` (v2). -/
structure MonitorRunState where
  pid : Int
  pgid : Int
  file : String
  mode : String
  started_at : Rat
  needle : String
deriving DecidableEq, Repr

/-- Model of `MultiRunState` (v2): the `monitors` dict, in insertion order. -/
structure MultiRunState where
  monitors : List (String × MonitorRunState)
deriving DecidableEq, Repr

/-- The union `RunState | MultiRunState` returned by `_read_state`. -/
inductive PersistedState
  | v1 (s : RunState)
  | v2 (m : MultiRunState)
deriving DecidableEq, Repr

/-- Oracle for the process-table reads performed by `stop()`:
`alive` models `_process_exists`, `mpvCmd` models
`_cmdline_contains(pid, "mpvpaper")`, `sweep1` models the
`_find_mpvpaper_pids(monitor, needle)` verification query made after the
group-kill attempt, and `sweep2` the same query repeated after the sweep's
own TERM/KILL pass (the legacy branch's recheck). -/
structure ProcEnv where
  alive : Int → Bool
  mpvCmd : Int → Bool
  sweep1 : String → String → List Int
  sweep2 : String → String → List Int

/-- Model of `_is_mpvpaper(pid)`. -/
def is_mpvpaper (env : ProcEnv) (pid : Int) : Bool :=
  env.alive pid && env.mpvCmd pid

/-- Python truthiness of `a or b` for lists: an empty list is falsy. -/
def pyOrList (a b : List Int) : List Int :=
  if a = [] then b else a

/-- The needle used by the legacy branch of `stop()`:
`getattr(state, "needle", "") or state.file`. -/
def v1_needle (s : RunState) : String :=
  pyOrStr (some s.needle) s.file

/-- The pids found by the legacy branch's first verification sweep:
`_find_mpvpaper_pids(monitor, needle) or _find_mpvpaper_pids(monitor, "")`. -/
def v1_first_pids (s : RunState) (env : ProcEnv) : List Int :=
  pyOrList (env.sweep1 s.monitor (v1_needle s)) (env.sweep1 s.monitor "")

/-- The pids found by the legacy branch's recheck after the sweep kills. -/
def v1_still_pids (s : RunState) (env : ProcEnv) : List Int :=
  pyOrList (env.sweep2 s.monitor (v1_needle s)) (env.sweep2 s.monitor "")

/-- One iteration of the multi-monitor loop in `stop()`: updates the
`stopped_any` accumulator for one `(monitor, state)` entry. -/
def stop_v2_step (env : ProcEnv) (acc : Bool) (x : String × MonitorRunState) : Bool :=
  let acc1 := if env.alive x.2.pid && is_mpvpaper env x.2.pid then true else acc
  let pids := pyOrList (env.sweep1 x.1 x.2.needle) (env.sweep1 x.1 "")
  if pids = [] then acc1 else true

/-- The observable outcome of `stop()`: its boolean return value, and
whether `_remove_statefile()` was called. -/
structure StopOutcome where
  result : Bool
  stateRemoved : Bool
deriving DecidableEq, Repr

/-- Model of `stop()` from `core/runner.py`, as a function of the persisted state
(`_read_state()` result) and the process-table oracle.  Signal sending has
no observable effect in this model beyond the distinction between the
`sweep1` and `sweep2` observations. -/
def stop (st : Option PersistedState) (env : ProcEnv) : StopOutcome :=
  match st with
  | none => ⟨false, false⟩
  | some (.v2 m) =>
    -- the loop over `state.monitors.items()`, then unconditional
    -- `_remove_statefile(); return stopped_any`
    ⟨m.monitors.foldl (stop_v2_step env) false, true⟩
  | some (.v1 s) =>
    let pids := v1_first_pids s env
    if pids = [] then ⟨true, true⟩
    else
      let still := v1_still_pids s env
      if still = [] then ⟨true, true⟩ else ⟨false, false⟩

/-- Whether one multi-monitor entry makes `stop()` report `True`:
the recorded pid is verified alive as an mpvpaper process, or the
verification sweep finds matching pids. -/
def kill_attempt (env : ProcEnv) (name : String) (ms : MonitorRunState) : Bool :=
  if pyOrList (env.sweep1 name ms.needle) (env.sweep1 name "") = [] then
    env.alive ms.pid && is_mpvpaper env ms.pid
  else true

/-- Helper: the `stopped_any` fold of the multi-monitor branch is the
disjunction of `kill_attempt` over the entries. -/
theorem foldl_stop_v2_step (env : ProcEnv) (l : List (String × MonitorRunState))
    (acc : Bool) :
    l.foldl (stop_v2_step env) acc =
      (acc || l.any fun x => kill_attempt env x.1 x.2) := by
  induction l generalizing acc with
  | nil => simp
  | cons x xs ih =>
    rw [List.foldl_cons, ih, List.any_cons]
    have hbody : stop_v2_step env acc x = (kill_attempt env x.1 x.2 || acc) := by
      simp only [stop_v2_step, kill_attempt]
      by_cases hp : pyOrList (env.sweep1 x.1 x.2.needle) (env.sweep1 x.1 "") = []
      · rw [if_pos hp, if_pos hp]
        by_cases hc : (env.alive x.2.pid && is_mpvpaper env x.2.pid) = true
        · rw [if_pos hc, hc, Bool.true_or]
        · rw [if_neg hc]
          cases hcv : env.alive x.2.pid && is_mpvpaper env x.2.pid
          · rw [Bool.false_or]
          · exact absurd hcv hc
      · rw [if_neg hp, if_neg hp, Bool.true_or]
    rw [hbody]
    cases kill_attempt env x.1 x.2 <;> cases acc <;> simp

/-- The monitor entry used by the C1 counterexample. -/
def c1_ms : MonitorRunState :=
  ⟨100, 100, "/wall.mp4", "fit", 0, "/wall.mp4"⟩

/-- The process-table oracle used by the C1 counterexample: the recorded
pid is dead, but every verification sweep — before and after the kill
attempts alike — still finds the live mpvpaper process 42. -/
def c1_env : ProcEnv :=
  ⟨fun _ => false, fun _ => false, fun _ _ => [42], fun _ _ => [42]⟩

/-- C1 counterexample: for a multi-monitor (v2) persisted state whose
verification sweep still finds a matching process (pid 42) even after the
kill attempts, `stop()` nevertheless returns success and removes the
persisted state file — the multi-monitor branch never re-checks the sweep
and calls `_remove_statefile()` unconditionally. -/
theorem stop_multi_success_despite_remaining_match :
    stop (some (.v2 ⟨[("DP-1", c1_ms)]⟩)) c1_env = ⟨true, true⟩ ∧
    c1_env.sweep2 "DP-1" "/wall.mp4" = [42] ∧
    c1_env.sweep1 "DP-1" "/wall.mp4" = [42] := by
  exact ⟨rfl, rfl, rfl⟩

/-- C1 (amended): the claimed stop/verify contract holds for the legacy
(v1) persisted state: success implies the final sweep observation was
empty and the state file was removed, and a remaining match after the kill
attempts forces failure with the state file left in place.  For the
multi-monitor (v2) state, `stop()` always removes the state file and
returns `True` exactly when some entry's recorded pid was verified alive
or some entry's verification sweep found matching pids, with no recheck
after the kill attempts. -/
theorem stop_contract (s : RunState) (m : MultiRunState) (env : ProcEnv) :
    ((stop (some (.v1 s)) env).result = true →
      (stop (some (.v1 s)) env).stateRemoved = true ∧
        (v1_first_pids s env = [] ∨ v1_still_pids s env = [])) ∧
    (v1_first_pids s env ≠ [] → v1_still_pids s env ≠ [] →
      stop (some (.v1 s)) env = ⟨false, false⟩) ∧
    ((stop (some (.v2 m)) env).stateRemoved = true) ∧
    ((stop (some (.v2 m)) env).result =
      (m.monitors.any fun x => kill_attempt env x.1 x.2)) := by
  refine ⟨?_, ?_, rfl, ?_⟩
  · intro hres
    simp only [stop] at hres ⊢
    by_cases hp : v1_first_pids s env = []
    · rw [if_pos hp]
      exact ⟨rfl, Or.inl hp⟩
    · rw [if_neg hp] at hres ⊢
      by_cases hst : v1_still_pids s env = []
      · rw [if_pos hst]
        exact ⟨rfl, Or.inr hst⟩
      · rw [if_neg hst] at hres
        exact absurd hres (by decide)
  · intro hp hst
    simp only [stop]
    rw [if_neg hp, if_neg hst]
  · simp only [stop]
    rw [foldl_stop_v2_step, Bool.false_or]

/-- Witness for `stop_contract` at concrete inputs. -/
theorem stop_contract_witness :
    stop (some (.v1 ⟨7, 7, "HDMI-1", "/w.mp4", "/w.mp4", "fit", 0⟩)) c1_env =
      ⟨false, false⟩ := by
  exact (stop_contract ⟨7, 7, "HDMI-1", "/w.mp4", "/w.mp4", "fit", 0⟩ ⟨[]⟩ c1_env).2.1
    (by decide) (by decide)

/-! ## `core/runner.py` : `_read_state` / `_write_state` -/

/-- A per-monitor entry of the state JSON document, after parsing: each
field either absent or of the expected type. -/
structure RawEntry where
  pid : Option Int
  pgid : Option Int
  file : Option String
  mode : Option String
  started_at : Option Rat
  needle : Option String
deriving DecidableEq, Repr

/-- The state JSON document, after parsing: the v2 fields (`version`,
`monitors`) and the legacy flat v1 fields. -/
structure RawDoc where
  version : Option Int
  pid : Option Int
  pgid : Option Int
  monitor : Option String
  file : Option String
  mode : Option String
  started_at : Option Rat
  needle : Option String
  monitors : Option (List (String × RawEntry))
deriving DecidableEq, Repr

/-- Reading one v2 monitor entry: `pid` and `pgid` are required
(`KeyError` aborts the read), the other fields have defaults, and
`needle` falls back to `file` when absent or empty. -/
def read_entry (x : String × RawEntry) : Option (String × MonitorRunState) :=
  match x.2.pid, x.2.pgid with
  | some p, some g =>
    some (x.1, ⟨p, g, x.2.file.getD "", x.2.mode.getD "auto", x.2.started_at.getD 0,
      pyOrStr x.2.needle (x.2.file.getD "")⟩)
  | _, _ => none

/-- The loop over `monitors_data.items()` in `_read_state`; any entry
missing `pid`/`pgid` raises `KeyError`, which the caller turns into `None`. -/
def read_entries : List (String × RawEntry) → Option (List (String × MonitorRunState))
  | [] => some []
  | x :: xs =>
    match read_entry x, read_entries xs with
    | some y, some ys => some (y :: ys)
    | _, _ => none

/-- Model of `_read_state()` from `core/runner.py`, as a function of the parsed
state document (`none` models a missing or unparseable file). -/
def read_state : Option RawDoc → Option PersistedState
  | none => none
  | some d =>
    -- `if "version" in data and data["version"] == 2:`
    if d.version = some 2 then
      (read_entries (d.monitors.getD [])).map fun ms => .v2 ⟨ms⟩
    else
      match d.pid, d.pgid with
      | some p, some g =>
        some (.v1 ⟨p, g, d.monitor.getD "", d.file.getD "",
          pyOrStr d.needle (d.file.getD ""), d.mode.getD "auto", d.started_at.getD 0⟩)
      | _, _ => none

/-- Writing one monitor entry in `_write_state`: every field present. -/
def write_entry (ms : MonitorRunState) : RawEntry :=
  ⟨some ms.pid, some ms.pgid, some ms.file, some ms.mode, some ms.started_at, some ms.needle⟩

/-- Model of `_write_state(state)` from `core/runner.py`: both the `MultiRunState`
branch and the legacy `RunState` branch produce a version-2 document. -/
def write_state : PersistedState → RawDoc
  | .v2 m =>
    { version := some 2, pid := none, pgid := none, monitor := none, file := none,
      mode := none, started_at := none, needle := none,
      monitors := some (m.monitors.map fun x => (x.1, write_entry x.2)) }
  | .v1 s =>
    { version := some 2, pid := none, pgid := none, monitor := none, file := none,
      mode := none, started_at := none, needle := none,
      monitors := some [(s.monitor, write_entry ⟨s.pid, s.pgid, s.file, s.mode,
        s.started_at, s.needle⟩)] }

/-- The semantic content of a read state: the map monitor name →
per-monitor run data, with the legacy form viewed as a one-entry map. -/
def canon : PersistedState → List (String × MonitorRunState)
  | .v1 s => [(s.monitor, ⟨s.pid, s.pgid, s.file, s.mode, s.started_at, s.needle⟩)]
  | .v2 m => m.monitors

/-- The multi-monitor (v2) document equivalent to a legacy document:
one entry under the legacy monitor name carrying the same fields. -/
def v2_equiv (d : RawDoc) : RawDoc :=
  { version := some 2, pid := none, pgid := none, monitor := none, file := none,
    mode := none, started_at := none, needle := none,
    monitors := some [(d.monitor.getD "", ⟨d.pid, d.pgid, d.file, d.mode,
      d.started_at, d.needle⟩)] }

/-- Whether a read result is in the multi-monitor representation. -/
def read_is_multi : Option PersistedState → Bool
  | some (.v2 _) => true
  | _ => false

/-- Helper: reading back the entries written by `_write_state`. -/
theorem read_entries_write (l : List (String × MonitorRunState)) :
    read_entries (l.map fun x => (x.1, write_entry x.2)) =
      some (l.map fun x => (x.1, ⟨x.2.pid, x.2.pgid, x.2.file, x.2.mode,
        x.2.started_at, pyOrStr (some x.2.needle) x.2.file⟩)) := by
  induction l with
  | nil => rfl
  | cons x xs ih =>
    simp only [List.map_cons, read_entries, ih]
    rfl

/-- C9: reading a legacy (v1) state document yields the same semantic
content as reading the equivalent multi-monitor (v2) document with one
entry; and every `_write_state` — for the legacy `RunState` and for
`MultiRunState` alike — persists the version-2 multi-monitor shape (no
legacy flat fields), which reads back in the multi-monitor representation. -/
theorem state_migration (d : RawDoc) (hv : d.version ≠ some 2) (st : PersistedState) :
    (read_state (some d)).map canon = (read_state (some (v2_equiv d))).map canon ∧
    (write_state st).version = some 2 ∧
    (write_state st).pid = none ∧ (write_state st).pgid = none ∧
    (write_state st).monitor = none ∧ (write_state st).file = none ∧
    (write_state st).mode = none ∧ (write_state st).started_at = none ∧
    (write_state st).needle = none ∧
    read_is_multi (read_state (some (write_state st))) = true := by
  refine ⟨?_, ?_, ?_, ?_, ?_, ?_, ?_, ?_, ?_, ?_⟩
  · simp only [read_state, if_neg hv, v2_equiv, if_pos rfl]
    rcases hp : d.pid with _ | p
    · rcases hg : d.pgid with _ | g
      · simp [read_entries, read_entry, hp, hg]
      · simp [read_entries, read_entry, hp, hg]
    · rcases hg : d.pgid with _ | g
      · simp [read_entries, read_entry, hp, hg]
      · simp [read_entries, read_entry, hp, hg, canon]
  · cases st <;> rfl
  · cases st <;> rfl
  · cases st <;> rfl
  · cases st <;> rfl
  · cases st <;> rfl
  · cases st <;> rfl
  · cases st <;> rfl
  · cases st <;> rfl
  · cases st with
    | v1 s =>
      simp only [write_state, read_state, if_pos rfl, Option.getD_some]
      rw [show [(s.monitor, write_entry ⟨s.pid, s.pgid, s.file, s.mode,
        s.started_at, s.needle⟩)] =
        ([(s.monitor, (⟨s.pid, s.pgid, s.file, s.mode, s.started_at,
          s.needle⟩ : MonitorRunState))].map fun x => (x.1, write_entry x.2)) from rfl,
        read_entries_write]
      rfl
    | v2 m =>
      simp only [write_state, read_state, if_pos rfl, Option.getD_some,
        read_entries_write]
      rfl

/-- Witness for `state_migration` at concrete inputs. -/
theorem state_migration_witness :
    (read_state (some ⟨none, some 5, some 5, some "DP-1", some "/w.mp4", some "fit",
        some 0, some "/w.mp4", none⟩)).map canon =
      (read_state (some (v2_equiv ⟨none, some 5, some 5, some "DP-1", some "/w.mp4",
        some "fit", some 0, some "/w.mp4", none⟩))).map canon := by
  exact (state_migration ⟨none, some 5, some 5, some "DP-1", some "/w.mp4", some "fit",
    some 0, some "/w.mp4", none⟩ (by decide) (.v1 ⟨5, 5, "DP-1", "/w.mp4", "/w.mp4",
    "fit", 0⟩)).1

/-! ## `core/optimize.py` : fingerprint, cache key, and the optimization cache

The cache key is `sha256(json.dumps(payload, sort_keys=True).encode("utf-8")).hexdigest()`.
The JSON serialization (CPython `json.dumps` with its default `ensure_ascii=True`
and separators), the UTF-8 encoding, and SHA-256 are embedded in full below;
the pipeline was checked byte-for-byte against CPython's `json` and `hashlib`. -/

/-- Lowercase hexadecimal digit for `n < 16`. -/
def hexDigitChar (n : Nat) : Char :=
  if n < 10 then Char.ofNat (48 + n) else Char.ofNat (87 + n)

/-- Four lowercase hex digits of `n < 0x10000` (`"%04x"`). -/
def hex4 (n : Nat) : List Char :=
  [hexDigitChar (n / 4096 % 16), hexDigitChar (n / 256 % 16),
   hexDigitChar (n / 16 % 16), hexDigitChar (n % 16)]

/-- CPython `json.dumps` per-character string escaping (`ensure_ascii=True`):
quote and backslash get two-character escapes, the five named control
characters get theirs, every other character outside `0x20..0x7e` becomes
`\uXXXX` (a surrogate pair for astral code points), and the rest pass
through unchanged. -/
def jsonEscapeChar (c : Char) : List Char :=
  if c = '\x22' then ['\x5c', '\x22']
  else if c = '\x5c' then ['\x5c', '\x5c']
  else if c = '\x08' then ['\x5c', 'b']
  else if c = '\x0c' then ['\x5c', 'f']
  else if c = '\n' then ['\x5c', 'n']
  else if c = '\r' then ['\x5c', 'r']
  else if c = '\t' then ['\x5c', 't']
  else if c.toNat < 0x20 ∨ 0x7e < c.toNat then
    if c.toNat < 0x10000 then '\\' :: 'u' :: hex4 c.toNat
    else
      ('\\' :: 'u' :: hex4 (0xd800 + (c.toNat - 0x10000) / 0x400)) ++
      ('\\' :: 'u' :: hex4 (0xdc00 + (c.toNat - 0x10000) % 0x400))
  else [c]

/-- JSON escaping of a whole string. -/
def jsonEscape : List Char → List Char
  | [] => []
  | c :: cs => jsonEscapeChar c ++ jsonEscape cs

/-- A JSON string literal: quote, escaped body, quote. -/
def jstr (s : List Char) : List Char :=
  '\"' :: (jsonEscape s ++ ['\"'])

/-- Decimal digit character. -/
def digitChar (n : Nat) : Char := Char.ofNat (48 + n)

/-- Decimal representation of a natural number, as `json.dumps` prints it. -/
def natDecimal (n : Nat) : List Char :=
  if n = 0 then ['0'] else ((Nat.digits 10 n).map digitChar).reverse

/-- Decimal representation of an integer. -/
def intDecimal (i : Int) : List Char :=
  if i < 0 then '-' :: natDecimal i.natAbs else natDecimal i.natAbs

/-- UTF-8 encoding of one character. -/
def utf8Char (c : Char) : List Nat :=
  let n := c.toNat
  if n < 0x80 then [n]
  else if n < 0x800 then [0xc0 + n / 0x40, 0x80 + n % 0x40]
  else if n < 0x10000 then [0xe0 + n / 0x1000, 0x80 + n / 0x40 % 0x40, 0x80 + n % 0x40]
  else [0xf0 + n / 0x40000, 0x80 + n / 0x1000 % 0x40, 0x80 + n / 0x40 % 0x40, 0x80 + n % 0x40]

/-- UTF-8 encoding of a string (`str.encode("utf-8")`). -/
def utf8 : List Char → List Nat
  | [] => []
  | c :: cs => utf8Char c ++ utf8 cs

/-- Truncation to 32 bits. -/
def u32 (n : Nat) : Nat := n % 4294967296

/-- 32-bit right rotation. -/
def rotr32 (x n : Nat) : Nat := u32 ((x >>> n) ||| (x <<< (32 - n)))

/-- SHA-256 Σ₀. -/
def bigSigma0 (x : Nat) : Nat := rotr32 x 2 ^^^ rotr32 x 13 ^^^ rotr32 x 22

/-- SHA-256 Σ₁. -/
def bigSigma1 (x : Nat) : Nat := rotr32 x 6 ^^^ rotr32 x 11 ^^^ rotr32 x 25

/-- SHA-256 σ₀. -/
def smallSigma0 (x : Nat) : Nat := rotr32 x 7 ^^^ rotr32 x 18 ^^^ (x >>> 3)

/-- SHA-256 σ₁. -/
def smallSigma1 (x : Nat) : Nat := rotr32 x 17 ^^^ rotr32 x 19 ^^^ (x >>> 10)

/-- The SHA-256 round constants. -/
def K256 : List Nat :=
  [1116352408, 1899447441, 3049323471, 3921009573, 961987163,
   1508970993, 2453635748, 2870763221, 3624381080, 310598401,
   607225278, 1426881987, 1925078388, 2162078206, 2614888103,
   3248222580, 3835390401, 4022224774, 264347078, 604807628,
   770255983, 1249150122, 1555081692, 1996064986, 2554220882,
   2821834349, 2952996808, 3210313671, 3336571891, 3584528711,
   113926993, 338241895, 666307205, 773529912, 1294757372,
   1396182291, 1695183700, 1986661051, 2177026350, 2456956037,
   2730485921, 2820302411, 3259730800, 3345764771, 3516065817,
   3600352804, 4094571909, 275423344, 430227734, 506948616,
   659060556, 883997877, 958139571, 1322822218, 1537002063,
   1747873779, 1955562222, 2024104815, 2227730452, 2361852424,
   2428436474, 2756734187, 3204031479, 3329325298]


/-- The SHA-256 initial hash state. -/
def H256 : List Nat :=
  [1779033703, 3144134277, 1013904242, 2773480762,
   1359893119, 2600822924, 528734635, 1541459225]


/-- Big-endian 32-bit words from bytes. -/
def bytesToWords : List Nat → List Nat
  | b0 :: b1 :: b2 :: b3 :: rest =>
    (b0 * 16777216 + b1 * 65536 + b2 * 256 + b3) :: bytesToWords rest
  | _ => []

/-- Extend a 16-word block to the 64-word message schedule. -/
def extendSchedule : Nat → List Nat → List Nat
  | 0, w => w
  | n + 1, w =>
    let t := u32 (smallSigma1 (w.getD (w.length - 2) 0) + w.getD (w.length - 7) 0 +
      smallSigma0 (w.getD (w.length - 15) 0) + w.getD (w.length - 16) 0)
    extendSchedule n (w ++ [t])

/-- One SHA-256 compression round on the 8-word working state. -/
def roundStep (st : List Nat) (kw : Nat × Nat) : List Nat :=
  match st with
  | [a, b, c, d, e, f, g, h] =>
    let ch := (g &&& (e ^^^ 4294967295)) ^^^ (e &&& f)
    let maj := (b &&& c) ^^^ ((a &&& b) ^^^ (a &&& c))
    let t1 := u32 (h + bigSigma1 e + ch + kw.1 + kw.2)
    let t2 := u32 (bigSigma0 a + maj)
    [u32 (t1 + t2), a, b, c, u32 (d + t1), e, f, g]
  | other => other

/-- Compress one 64-byte block into the hash state. -/
def compressBlock (h : List Nat) (block : List Nat) : List Nat :=
  let w := extendSchedule 48 (bytesToWords block)
  let st := (w.zip K256).foldl roundStep h
  (h.zip st).map fun p => u32 (p.1 + p.2)

/-- Big-endian 8-byte encoding of the message bit length. -/
def be8 (n : Nat) : List Nat :=
  [n / 72057594037927936 % 256, n / 281474976710656 % 256, n / 1099511627776 % 256,
   n / 4294967296 % 256, n / 16777216 % 256, n / 65536 % 256, n / 256 % 256, n % 256]

/-- SHA-256 padding: `0x80`, zeros to 56 mod 64, 8-byte bit length. -/
def sha256pad (msg : List Nat) : List Nat :=
  msg ++ [0x80] ++ List.replicate ((119 - msg.length % 64) % 64) 0 ++ be8 (msg.length * 8)

/-- Split a padded message into 64-byte blocks. -/
def toBlocks (l : List Nat) : List (List Nat) :=
  if _h : l = [] then [] else l.take 64 :: toBlocks (l.drop 64)
termination_by l.length
decreasing_by
  simp only [List.length_drop]
  have hl : 0 < l.length := List.length_pos.mpr _h
  omega

/-- SHA-256 digest (32 bytes) of a byte string. -/
def sha256bytes (msg : List Nat) : List Nat :=
  ((toBlocks (sha256pad msg)).foldl compressBlock H256).foldr
    (fun w acc => [w / 16777216 % 256, w / 65536 % 256, w / 256 % 256, w % 256] ++ acc) []

/-- Two lowercase hex digits of a byte. -/
def byteToHex (b : Nat) : List Char := [hexDigitChar (b / 16), hexDigitChar (b % 16)]

/-- Lowercase hex digest of a byte string. -/
def hexOfBytes (l : List Nat) : List Char :=
  l.foldr (fun b acc => byteToHex b ++ acc) []

/-- Model of `_sha256_text(s)` from `core/optimize.py`:
`hashlib.sha256(s.encode("utf-8")).hexdigest()`. -/
def sha256_text (s : List Char) : String :=
  ⟨hexOfBytes (sha256bytes (utf8 s))⟩

/-- The literal value of a codec name. -/
def codecName : Codec → String
  | .h264 => "h264"
  | .vp9 => "vp9"
  | .av1 => "av1"

/-- The literal value of an encoder name. -/
def encoderName : Encoder → String
  | .auto => "auto"
  | .cpu => "cpu"
  | .vaapi => "vaapi"
  | .nvenc => "nvenc"

/-- The result of `p.stat()` and `p.resolve()` for the source file:
`path` is the path as given (used only for suffix detection), `resolved`
is `str(p.resolve())`, and `size`/`mtime` are `st_size` and
`int(st_mtime)` — together the `_source_fingerprint`. -/
structure Source where
  path : String
  resolved : String
  size : Nat
  mtime : Int
deriving DecidableEq, Repr

/-- The `OptimizeProfile` dataclass. -/
structure OptimizeProfile where
  name : String
  fps : Int
  quality : Int
  preset : String
deriving DecidableEq, Repr

/-- The `ECO` profile. -/
def ECO : OptimizeProfile := ⟨"eco", 24, 28, "veryfast"⟩

/-- The `ECO_STRICT` profile. -/
def ECO_STRICT : OptimizeProfile := ⟨"eco_strict", 18, 30, "veryfast"⟩

/-- The `BALANCED` profile. -/
def BALANCED : OptimizeProfile := ⟨"balanced", 30, 24, "veryfast"⟩

/-- The `QUALITY` profile. -/
def QUALITY : OptimizeProfile := ⟨"quality", 30, 20, "fast"⟩

/-- String-literal fragment helper. -/
def lit (s : String) : List Char := s.data

/-- Model of `json.dumps(payload, sort_keys=True)` for the cache-key payload built in
`cache_key`: the keys appear in sorted order (`codec, enc, fps, h, mode,
preset, quality, src, w`; nested `src`: `mtime, path, size`) with CPython's
default separators.  Checked byte-for-byte against CPython. -/
def payload_json (source : Source) (width height : Int) (profile : OptimizeProfile)
    (mode : String) (codec : Codec) (encoder : Encoder) : List Char :=
  lit "\x7b\"codec\": " ++ jstr (codecName codec).data
  ++ lit ", \"enc\": " ++ jstr (encoderName encoder).data
  ++ lit ", \"fps\": " ++ intDecimal profile.fps
  ++ lit ", \"h\": " ++ intDecimal height
  ++ lit ", \"mode\": " ++ jstr mode.data
  ++ lit ", \"preset\": " ++ jstr profile.preset.data
  ++ lit ", \"quality\": " ++ intDecimal profile.quality
  ++ lit ", \"src\": \x7b\"mtime\": " ++ intDecimal source.mtime
  ++ lit ", \"path\": " ++ jstr source.resolved.data
  ++ lit ", \"size\": " ++ natDecimal source.size
  ++ lit "\x7d, \"w\": " ++ intDecimal width
  ++ lit "\x7d"

/-- Model of `cache_key(source, width, height, profile, mode, codec, encoder)` from
`core/optimize.py`: the SHA-256 hex digest of the canonical field-sorted
serialization of the request. -/
def cache_key (source : Source) (width height : Int) (profile : OptimizeProfile)
    (mode : String) (codec : Codec) (encoder : Encoder) : String :=
  sha256_text (payload_json source width height profile mode codec encoder)

/-- The container extension chosen by codec in `optimized_path`. -/
def codec_ext : Codec → String
  | .h264 => ".mp4"
  | .vp9 => ".webm"
  | .av1 => ".mkv"

/-- Model of `optimized_path(key, codec)`: `OPT_DIR / key / f"wallpaper{ext}"`.
The module-level `paths.OPT_DIR` is passed explicitly as `optDir`. -/
def optimized_path (optDir : String) (key : String) (codec : Codec) : String :=
  optDir ++ "/" ++ key ++ "/wallpaper" ++ codec_ext codec

/-- Model of `dst.with_name(dst.stem + ".tmp" + dst.suffix)` for the artifact path:
the temp path written beside the final path. -/
def tmp_path (optDir : String) (key : String) (codec : Codec) : String :=
  optDir ++ "/" ++ key ++ "/wallpaper.tmp" ++ codec_ext codec

/-- The `IMAGE_EXTS` set from `core/detect.py`. -/
def IMAGE_EXTS : List String :=
  [".png", ".jpg", ".jpeg", ".webp", ".bmp", ".gif"]

/-- The last path component (`Path(p).name`). -/
def lastComponent (l : List Char) : List Char :=
  l.foldl (fun acc c => if c = '/' then [] else acc ++ [c]) []

/-- Index of the last `'.'` in a character list (`str.rfind('.')`). -/
def rfindDotAux : List Char → Nat → Option Nat → Option Nat
  | [], _, acc => acc
  | c :: cs, i, acc => rfindDotAux cs (i + 1) (if c = '.' then some i else acc)

/-- Model of `Path(p).suffix`: the final extension of the last component, empty for
names with no dot, a leading dot only, or a trailing dot. -/
def path_suffix (p : String) : String :=
  let name := lastComponent p.data
  match rfindDotAux name 0 none with
  | some i => if 0 < i ∧ i < name.length - 1 then ⟨name.drop i⟩ else ""
  | none => ""

/-- Model of `str.lower()` (ASCII case folding, enough for file extensions). -/
def toLowerStr (s : String) : String := ⟨s.data.map Char.toLower⟩

/-- Model of `source.suffix.lower() in IMAGE_EXTS`, the still-image test used by
`ensure_optimized`. -/
def is_image_suffix (p : String) : Bool :=
  IMAGE_EXTS.contains (toLowerStr (path_suffix p))

/-- The `-c:v` argument used by the still-image branch of
`ensure_optimized`: always a software encoder, whatever was chosen. -/
def image_codec_arg : Codec → String
  | .h264 => "libx264"
  | .av1 => "libaom-av1"
  | .vp9 => "libvpx-vp9"

/-- The `-c:v` argument used by the video branch of `ensure_optimized`
(`_encode_h264_nvenc` / `_encode_h264_cpu` / `_encode_av1_vaapi` /
`_encode_vp9_cpu`). -/
def video_codec_arg : Codec → Encoder → String
  | .h264, chosen => if chosen = .nvenc then "h264_nvenc" else "libx264"
  | .av1, _ => "av1_vaapi"
  | .vp9, _ => "libvpx-vp9"

/-- The ffmpeg software encoders. -/
def SOFTWARE_ARGS : List String := ["libx264", "libaom-av1", "libvpx-vp9"]

/-- The `OptimizeResult` dataclass. -/
structure OptimizeResult where
  path : String
  cache_hit : Bool
  requested : Encoder
  chosen : Encoder
  used : Encoder
deriving DecidableEq, Repr

/-- The outcome of one external ffmpeg encode invocation: success with the
byte size written to the temp path, `CalledProcessError` with the partial
temp content (if any) left behind, or `KeyboardInterrupt` likewise. -/
inductive EncodeOutcome
  | success (size : Nat)
  | failed (partialSize : Option Nat)
  | interrupted (partialSize : Option Nat)
deriving DecidableEq, Repr

/-- The size-by-path view of the filesystem (`none` = file absent). -/
def Fs : Type := String → Option Nat

/-- Point update of the filesystem view (file write, rename target,
or unlink with `none`). -/
def fsUpdate (fs : Fs) (p : String) (v : Option Nat) : Fs :=
  fun q => if q = p then v else fs q

/-- The environment read by `ensure_optimized`: whether ffmpeg is on PATH,
the capability probe and hardware facts used by `pick_encoder`, the
filesystem, and the outcome of an encode invocation as a function of the
`-c:v` encoder argument. -/
structure OptEnv where
  ffmpeg : Bool
  probe : Except Unit EncodersText
  hw : HwEnv
  fs : Fs
  encode : String → EncodeOutcome

/-- Model of `ensure_optimized(source, width, height, profile, mode, codec, encoder)`
from `core/optimize.py`.  Raised `RuntimeError`s are modelled as `.error`
carrying the message and the filesystem at raise time; `.ok` carries the
`OptimizeResult` and the resulting filesystem.  Branches, in source order:
missing ffmpeg; encoder resolution; cache hit on a non-empty artifact;
still-image encode (software `-c:v`, `used="cpu"`, temp rename, **no**
cleanup on failure); video encode (temp rename on success, temp unlink on
failure before re-raising). -/
def ensure_optimized (source : Source) (width height : Int) (profile : OptimizeProfile)
    (mode : String) (codec : Codec) (encoder : Encoder) (optDir : String) (env : OptEnv) :
    Except (String × Fs) (OptimizeResult × Fs) :=
  if env.ffmpeg = false then
    .error ("ffmpeg not found in PATH. Install it to enable optimization.", env.fs)
  else
    match pick_encoder encoder codec env.probe env.hw with
    | .error e => .error (e, env.fs)
    | .ok chosen =>
      let key := cache_key source width height profile mode codec chosen
      let dst := optimized_path optDir key codec
      -- `if dst.exists() and dst.stat().st_size > 0:` — cache hit
      if (env.fs dst).getD 0 > 0 then
        .ok (⟨dst, true, encoder, chosen, chosen⟩, env.fs)
      else
        let tmp := tmp_path optDir key codec
        if is_image_suffix source.path then
          match env.encode (image_codec_arg codec) with
          | .success s =>
            let fs1 := fsUpdate env.fs tmp (some s)
            .ok (⟨dst, false, encoder, chosen, .cpu⟩,
              fsUpdate (fsUpdate fs1 tmp none) dst (some s))
          | .failed p => .error ("ffmpeg failed", fsUpdate env.fs tmp p)
          | .interrupted p =>
            .error ("Encoding interrupted by user.", fsUpdate env.fs tmp p)
        else
          match env.encode (video_codec_arg codec chosen) with
          | .success s =>
            let fs1 := fsUpdate env.fs tmp (some s)
            .ok (⟨dst, false, encoder, chosen, chosen⟩,
              fsUpdate (fsUpdate fs1 tmp none) dst (some s))
          | .failed p =>
            .error ("ffmpeg failed", fsUpdate (fsUpdate env.fs tmp p) tmp none)
          | .interrupted p =>
            .error ("Encoding interrupted by user.", fsUpdate (fsUpdate env.fs tmp p) tmp none)

/-! ## Injectivity of the canonical serialization

The JSON escape is inverted by a one-character decoder, which yields
injectivity of string serialization; decimal serialization is inverted via
`Nat.ofDigits`. -/

/-- Value of a lowercase hex digit character. -/
def hexVal (c : Char) : Nat :=
  if c.toNat ≤ 57 then c.toNat - 48 else c.toNat - 87

/-- Lemma: `hexVal` inverts `hexDigitChar` on digit values. -/
theorem hexVal_hexDigitChar (k : Nat) (hk : k < 16) : hexVal (hexDigitChar k) = k := by
  interval_cases k <;> decide

/-- Decoder step for a `\uXXXX` escape with value `n`: a high surrogate
consumes a following `\uXXXX` low surrogate, anything else is a BMP
code point. -/
def decodeU (n : Nat) (r3 : List Char) : Option (Char × List Char) :=
  if 0xd800 ≤ n ∧ n < 0xdc00 then
    match r3 with
    | x :: y :: a2 :: b2 :: e2 :: f2 :: r4 =>
      if x = '\\' ∧ y = 'u' then
        some (Char.ofNat (0x10000 + (n - 0xd800) * 1024 +
          (hexVal a2 * 4096 + hexVal b2 * 256 + hexVal e2 * 16 + hexVal f2 - 0xdc00)), r4)
      else none
    | _ => none
  else some (Char.ofNat n, r3)

/-- Decode one escaped character from the front of a JSON-escaped stream. -/
def decodeOne (l : List Char) : Option (Char × List Char) :=
  match l with
  | [] => none
  | c :: rest =>
    if c = '\\' then
      match rest with
      | [] => none
      | d :: r2 =>
        if d = '\"' then some ('\"', r2)
        else if d = '\\' then some ('\\', r2)
        else if d = 'b' then some ('\x08', r2)
        else if d = 'f' then some ('\x0c', r2)
        else if d = 'n' then some ('\n', r2)
        else if d = 'r' then some ('\r', r2)
        else if d = 't' then some ('\t', r2)
        else if d = 'u' then
          match r2 with
          | a :: b :: e :: f :: r3 =>
            decodeU (hexVal a * 4096 + hexVal b * 256 + hexVal e * 16 + hexVal f) r3
          | _ => none
        else none
    else some (c, rest)

/-- Unfolding `decodeOne` on a `\u` escape. -/
theorem decodeOne_u (a b e f : Char) (r3 : List Char) :
    decodeOne ('\\' :: 'u' :: a :: b :: e :: f :: r3) =
      decodeU (hexVal a * 4096 + hexVal b * 256 + hexVal e * 16 + hexVal f) r3 := rfl

/-- Unfolding `decodeU` on a high surrogate followed by a `\u` escape. -/
theorem decodeU_pair (n : Nat) (l3 l2 l1 l0 : Char) (t : List Char)
    (h : 0xd800 ≤ n ∧ n < 0xdc00) :
    decodeU n ('\\' :: 'u' :: l3 :: l2 :: l1 :: l0 :: t) =
      some (Char.ofNat (0x10000 + (n - 0xd800) * 1024 +
        (hexVal l3 * 4096 + hexVal l2 * 256 + hexVal l1 * 16 + hexVal l0 - 0xdc00)), t) := by
  simp only [decodeU, if_pos h]
  rfl

/-- Unfolding `decodeU` outside the high-surrogate range. -/
theorem decodeU_bmp (n : Nat) (r3 : List Char) (h : ¬(0xd800 ≤ n ∧ n < 0xdc00)) :
    decodeU n r3 = some (Char.ofNat n, r3) := by
  simp only [decodeU, if_neg h]

/-- A `Char`'s code point is a Unicode scalar value: below the surrogate
range, or above it and below `0x110000`. -/
theorem char_valid_nat (c : Char) :
    c.toNat < 0xd800 ∨ (0xdfff < c.toNat ∧ c.toNat < 0x110000) := c.valid

/-- The decoder inverts the escape of one character at the front of any
stream. -/
theorem decodeOne_escape (c : Char) (t : List Char) :
    decodeOne (jsonEscapeChar c ++ t) = some (c, t) := by
  by_cases h1 : c = '\"'
  · subst h1; rfl
  by_cases h2 : c = '\\'
  · subst h2; rfl
  by_cases h3 : c = '\x08'
  · subst h3; rfl
  by_cases h4 : c = '\x0c'
  · subst h4; rfl
  by_cases h5 : c = '\n'
  · subst h5; rfl
  by_cases h6 : c = '\r'
  · subst h6; rfl
  by_cases h7 : c = '\t'
  · subst h7; rfl
  by_cases h8 : c.toNat < 0x20 ∨ 0x7e < c.toNat
  · have hval := char_valid_nat c
    by_cases h9 : c.toNat < 0x10000
    · have hesc : jsonEscapeChar c = '\\' :: 'u' :: hex4 c.toNat := by
        simp only [jsonEscapeChar, if_neg h1, if_neg h2, if_neg h3, if_neg h4, if_neg h5,
          if_neg h6, if_neg h7, if_pos h8, if_pos h9]
      rw [hesc]
      simp only [hex4, List.cons_append, List.nil_append]
      rw [decodeOne_u,
        hexVal_hexDigitChar (c.toNat / 4096 % 16) (Nat.mod_lt _ (by norm_num)),
        hexVal_hexDigitChar (c.toNat / 256 % 16) (Nat.mod_lt _ (by norm_num)),
        hexVal_hexDigitChar (c.toNat / 16 % 16) (Nat.mod_lt _ (by norm_num)),
        hexVal_hexDigitChar (c.toNat % 16) (Nat.mod_lt _ (by norm_num))]
      have hn : c.toNat / 4096 % 16 * 4096 + c.toNat / 256 % 16 * 256 +
          c.toNat / 16 % 16 * 16 + c.toNat % 16 = c.toNat := by omega
      rw [hn, decodeU_bmp _ _ (by omega), Char.ofNat_toNat]
    · have hesc : jsonEscapeChar c =
          ('\\' :: 'u' :: hex4 (0xd800 + (c.toNat - 0x10000) / 0x400)) ++
          ('\\' :: 'u' :: hex4 (0xdc00 + (c.toNat - 0x10000) % 0x400)) := by
        simp only [jsonEscapeChar, if_neg h1, if_neg h2, if_neg h3, if_neg h4, if_neg h5,
          if_neg h6, if_neg h7, if_pos h8, if_neg h9]
      rw [hesc]
      have hmod := Nat.mod_lt (c.toNat - 0x10000) (show 0 < 0x400 by norm_num)
      simp only [hex4, List.cons_append, List.nil_append, List.append_assoc]
      rw [decodeOne_u,
        hexVal_hexDigitChar ((0xd800 + (c.toNat - 0x10000) / 0x400) / 4096 % 16)
          (Nat.mod_lt _ (by norm_num)),
        hexVal_hexDigitChar ((0xd800 + (c.toNat - 0x10000) / 0x400) / 256 % 16)
          (Nat.mod_lt _ (by norm_num)),
        hexVal_hexDigitChar ((0xd800 + (c.toNat - 0x10000) / 0x400) / 16 % 16)
          (Nat.mod_lt _ (by norm_num)),
        hexVal_hexDigitChar ((0xd800 + (c.toNat - 0x10000) / 0x400) % 16)
          (Nat.mod_lt _ (by norm_num))]
      have hhn : (0xd800 + (c.toNat - 0x10000) / 0x400) / 4096 % 16 * 4096 +
          (0xd800 + (c.toNat - 0x10000) / 0x400) / 256 % 16 * 256 +
          (0xd800 + (c.toNat - 0x10000) / 0x400) / 16 % 16 * 16 +
          (0xd800 + (c.toNat - 0x10000) / 0x400) % 16 =
          0xd800 + (c.toNat - 0x10000) / 0x400 := by omega
      rw [hhn, decodeU_pair _ _ _ _ _ _ (by constructor <;> omega),
        hexVal_hexDigitChar ((0xdc00 + (c.toNat - 0x10000) % 0x400) / 4096 % 16)
          (Nat.mod_lt _ (by norm_num)),
        hexVal_hexDigitChar ((0xdc00 + (c.toNat - 0x10000) % 0x400) / 256 % 16)
          (Nat.mod_lt _ (by norm_num)),
        hexVal_hexDigitChar ((0xdc00 + (c.toNat - 0x10000) % 0x400) / 16 % 16)
          (Nat.mod_lt _ (by norm_num)),
        hexVal_hexDigitChar ((0xdc00 + (c.toNat - 0x10000) % 0x400) % 16)
          (Nat.mod_lt _ (by norm_num))]
      have hln : (0xdc00 + (c.toNat - 0x10000) % 0x400) / 4096 % 16 * 4096 +
          (0xdc00 + (c.toNat - 0x10000) % 0x400) / 256 % 16 * 256 +
          (0xdc00 + (c.toNat - 0x10000) % 0x400) / 16 % 16 * 16 +
          (0xdc00 + (c.toNat - 0x10000) % 0x400) % 16 =
          0xdc00 + (c.toNat - 0x10000) % 0x400 := by omega
      rw [hln]
      have hcomb : 0x10000 + (0xd800 + (c.toNat - 0x10000) / 0x400 - 0xd800) * 1024 +
          (0xdc00 + (c.toNat - 0x10000) % 0x400 - 0xdc00) = c.toNat := by omega
      rw [hcomb, Char.ofNat_toNat]
  · have hesc : jsonEscapeChar c = [c] := by
      simp only [jsonEscapeChar, if_neg h1, if_neg h2, if_neg h3, if_neg h4, if_neg h5,
        if_neg h6, if_neg h7, if_neg h8]
    rw [hesc]
    simp only [List.cons_append, List.nil_append, decodeOne]
    rw [if_neg h2]

/-- JSON string escaping is injective. -/
theorem jsonEscape_inj : ∀ {s1 s2 : List Char}, jsonEscape s1 = jsonEscape s2 → s1 = s2 := by
  intro s1
  induction s1 with
  | nil =>
    intro s2 h
    cases s2 with
    | nil => rfl
    | cons c cs =>
      exfalso
      have hd := decodeOne_escape c (jsonEscape cs)
      rw [show jsonEscapeChar c ++ jsonEscape cs = jsonEscape (c :: cs) from rfl, ← h] at hd
      exact absurd hd (by simp [jsonEscape, decodeOne])
  | cons c cs ih =>
    intro s2 h
    cases s2 with
    | nil =>
      exfalso
      have hd := decodeOne_escape c (jsonEscape cs)
      rw [show jsonEscapeChar c ++ jsonEscape cs = jsonEscape (c :: cs) from rfl, h] at hd
      exact absurd hd (by simp [jsonEscape, decodeOne])
    | cons c' cs' =>
      have hd1 := decodeOne_escape c (jsonEscape cs)
      have hd2 := decodeOne_escape c' (jsonEscape cs')
      rw [show jsonEscapeChar c ++ jsonEscape cs = jsonEscape (c :: cs) from rfl, h,
        ← show jsonEscapeChar c' ++ jsonEscape cs' = jsonEscape (c' :: cs') from rfl,
        hd2] at hd1
      have hc : c' = c ∧ jsonEscape cs' = jsonEscape cs := by
        constructor
        · exact congrArg (fun z => (z.getD (' ', [])).1) hd1
        · exact congrArg (fun z => (z.getD (' ', [])).2) hd1
      rw [hc.1, ih hc.2.symm]

/-- JSON string literals are injective. -/
theorem jstr_inj {s1 s2 : List Char} (h : jstr s1 = jstr s2) : s1 = s2 := by
  simp only [jstr, List.cons.injEq, true_and] at h
  exact jsonEscape_inj (List.append_cancel_right h)

/-- Lemma: `digitChar` is injective on digit values. -/
theorem digitChar_inj_lt {a b : Nat} (ha : a < 10) (hb : b < 10)
    (h : digitChar a = digitChar b) : a = b := by
  interval_cases a <;> interval_cases b <;> first | rfl | exact absurd h (by decide)

/-- A digit character is never the minus sign. -/
theorem digitChar_ne_minus {d : Nat} (hd : d < 10) : digitChar d ≠ '-' := by
  interval_cases d <;> decide

/-- Mapping `digitChar` over digit lists is injective. -/
theorem map_digitChar_inj : ∀ {l1 l2 : List Nat}, (∀ x ∈ l1, x < 10) →
    (∀ x ∈ l2, x < 10) → l1.map digitChar = l2.map digitChar → l1 = l2 := by
  intro l1
  induction l1 with
  | nil =>
    intro l2 _ _ h
    cases l2 with
    | nil => rfl
    | cons b bs => exact absurd h (by simp)
  | cons a as ih =>
    intro l2 h1 h2 h
    cases l2 with
    | nil => exact absurd h (by simp)
    | cons b bs =>
      simp only [List.map_cons, List.cons.injEq] at h
      rw [digitChar_inj_lt (h1 a (by simp)) (h2 b (by simp)) h.1,
        ih (fun x hx => h1 x (by simp [hx])) (fun x hx => h2 x (by simp [hx])) h.2]

/-- A nonzero number's decimal representation is never `"0"`. -/
theorem natDecimal_ne_zero_str {n : Nat} (hn : n ≠ 0) : natDecimal n ≠ ['0'] := by
  intro h
  simp only [natDecimal, if_neg hn] at h
  have hmap : (Nat.digits 10 n).map digitChar = ['0'] := by
    have := congrArg List.reverse h
    simpa using this
  rcases hd : Nat.digits 10 n with _ | ⟨d, ds⟩
  · rw [hd] at hmap
    exact absurd hmap (by simp)
  · rw [hd] at hmap
    simp only [List.map_cons, List.cons.injEq, List.map_eq_nil_iff] at hmap
    have hd10 : d < 10 := Nat.digits_lt_base (by norm_num) (by rw [hd]; simp)
    have hd0 : d = 0 := digitChar_inj_lt hd10 (by norm_num) hmap.1
    have hzero := congrArg (Nat.ofDigits 10) (show Nat.digits 10 n = [0] by
      rw [hd, hmap.2, hd0])
    rw [Nat.ofDigits_digits] at hzero
    simp [Nat.ofDigits] at hzero
    exact hn hzero

/-- Decimal representation of naturals is injective. -/
theorem natDecimal_inj : ∀ {m n : Nat}, natDecimal m = natDecimal n → m = n := by
  intro m n h
  by_cases hm : m = 0 <;> by_cases hn : n = 0
  · omega
  · subst hm
    exact absurd h.symm (natDecimal_ne_zero_str hn)
  · subst hn
    exact absurd h (natDecimal_ne_zero_str hm)
  · simp only [natDecimal, if_neg hm, if_neg hn] at h
    have hmap := List.reverse_injective h
    have hdig := map_digitChar_inj
      (fun x hx => Nat.digits_lt_base (by norm_num) hx)
      (fun x hx => Nat.digits_lt_base (by norm_num) hx) hmap
    have := congrArg (Nat.ofDigits 10) hdig
    rwa [Nat.ofDigits_digits, Nat.ofDigits_digits] at this

/-- A decimal representation of a natural never starts with a minus sign. -/
theorem natDecimal_ne_minus_cons (n : Nat) (rest : List Char) :
    natDecimal n ≠ '-' :: rest := by
  intro h
  by_cases hn : n = 0
  · subst hn
    simp [natDecimal] at h
  · simp only [natDecimal, if_neg hn] at h
    have hmem : '-' ∈ ((Nat.digits 10 n).map digitChar).reverse := by
      rw [h]; simp
    rw [List.mem_reverse] at hmem
    obtain ⟨d, hd, hdc⟩ := List.mem_map.mp hmem
    exact digitChar_ne_minus (Nat.digits_lt_base (by norm_num) hd) hdc

/-- Decimal representation of integers is injective. -/
theorem intDecimal_inj : ∀ {i j : Int}, intDecimal i = intDecimal j → i = j := by
  intro i j h
  by_cases hi : i < 0 <;> by_cases hj : j < 0
  · simp only [intDecimal, if_pos hi, if_pos hj, List.cons.injEq, true_and] at h
    have := natDecimal_inj h
    omega
  · simp only [intDecimal, if_pos hi, if_neg hj] at h
    exact absurd h.symm (natDecimal_ne_minus_cons _ _)
  · simp only [intDecimal, if_neg hi, if_pos hj] at h
    exact absurd h (natDecimal_ne_minus_cons _ _)
  · simp only [intDecimal, if_neg hi, if_neg hj] at h
    have := natDecimal_inj h
    omega

/-- Codec names are distinct. -/
theorem codecName_inj : ∀ c c' : Codec, (codecName c).data = (codecName c').data → c = c' := by
  intro c c'
  cases c <;> cases c' <;> decide

/-- Encoder names are distinct. -/
theorem encoderName_inj : ∀ e e' : Encoder,
    (encoderName e).data = (encoderName e').data → e = e' := by
  intro e e'
  cases e <;> cases e' <;> decide

/-- Strings with equal character data are equal. -/
theorem stringData_inj {s t : String} (h : s.data = t.data) : s = t := by
  cases s
  cases t
  exact congrArg String.mk h

/-- C8: `cache_key` is pure and deterministic — it depends on exactly the
fingerprint (resolved path, size, mtime), the dimensions, the profile's
fps/quality/preset, the mode, the codec and the encoder, so identical
inputs (also across process restarts) give the identical digest; and
changing any one of these fields changes the canonical field-sorted
serialization that the digest hashes. -/
theorem cache_key_deterministic_discriminating :
    (∀ (s1 s2 : Source) (w h : Int) (p1 p2 : OptimizeProfile) (mode : String)
      (codec : Codec) (enc : Encoder),
      s1.resolved = s2.resolved → s1.size = s2.size → s1.mtime = s2.mtime →
      p1.fps = p2.fps → p1.quality = p2.quality → p1.preset = p2.preset →
      cache_key s1 w h p1 mode codec enc = cache_key s2 w h p2 mode codec enc) ∧
    (∀ (src : Source) (w h : Int) (p : OptimizeProfile) (mode : String)
      (codec : Codec) (enc : Encoder),
      (∀ codec', codec ≠ codec' →
        payload_json src w h p mode codec enc ≠ payload_json src w h p mode codec' enc) ∧
      (∀ enc', enc ≠ enc' →
        payload_json src w h p mode codec enc ≠ payload_json src w h p mode codec enc') ∧
      (∀ fps', p.fps ≠ fps' →
        payload_json src w h p mode codec enc ≠
          payload_json src w h ⟨p.name, fps', p.quality, p.preset⟩ mode codec enc) ∧
      (∀ h', h ≠ h' →
        payload_json src w h p mode codec enc ≠ payload_json src w h' p mode codec enc) ∧
      (∀ mode', mode ≠ mode' →
        payload_json src w h p mode codec enc ≠ payload_json src w h p mode' codec enc) ∧
      (∀ preset', p.preset ≠ preset' →
        payload_json src w h p mode codec enc ≠
          payload_json src w h ⟨p.name, p.fps, p.quality, preset'⟩ mode codec enc) ∧
      (∀ quality', p.quality ≠ quality' →
        payload_json src w h p mode codec enc ≠
          payload_json src w h ⟨p.name, p.fps, quality', p.preset⟩ mode codec enc) ∧
      (∀ mtime', src.mtime ≠ mtime' →
        payload_json src w h p mode codec enc ≠
          payload_json ⟨src.path, src.resolved, src.size, mtime'⟩ w h p mode codec enc) ∧
      (∀ r', src.resolved ≠ r' →
        payload_json src w h p mode codec enc ≠
          payload_json ⟨src.path, r', src.size, src.mtime⟩ w h p mode codec enc) ∧
      (∀ size', src.size ≠ size' →
        payload_json src w h p mode codec enc ≠
          payload_json ⟨src.path, src.resolved, size', src.mtime⟩ w h p mode codec enc) ∧
      (∀ w', w ≠ w' →
        payload_json src w h p mode codec enc ≠ payload_json src w' h p mode codec enc)) := by
  constructor
  · intro s1 s2 w h p1 p2 mode codec enc h1 h2 h3 h4 h5 h6
    simp only [cache_key, payload_json, h1, h2, h3, h4, h5, h6]
  · intro src w h p mode codec enc
    refine ⟨?_, ?_, ?_, ?_, ?_, ?_, ?_, ?_, ?_, ?_, ?_⟩
    · intro codec' hne heq
      simp only [payload_json, List.append_assoc] at heq
      iterate 1 replace heq := List.append_cancel_left heq
      exact hne (codecName_inj _ _ (jstr_inj (List.append_cancel_right heq)))
    · intro enc' hne heq
      simp only [payload_json, List.append_assoc] at heq
      iterate 3 replace heq := List.append_cancel_left heq
      exact hne (encoderName_inj _ _ (jstr_inj (List.append_cancel_right heq)))
    · intro fps' hne heq
      simp only [payload_json, List.append_assoc] at heq
      iterate 5 replace heq := List.append_cancel_left heq
      exact hne (intDecimal_inj (List.append_cancel_right heq))
    · intro h' hne heq
      simp only [payload_json, List.append_assoc] at heq
      iterate 7 replace heq := List.append_cancel_left heq
      exact hne (intDecimal_inj (List.append_cancel_right heq))
    · intro mode' hne heq
      simp only [payload_json, List.append_assoc] at heq
      iterate 9 replace heq := List.append_cancel_left heq
      exact hne (stringData_inj (jstr_inj (List.append_cancel_right heq)))
    · intro preset' hne heq
      simp only [payload_json, List.append_assoc] at heq
      iterate 11 replace heq := List.append_cancel_left heq
      exact hne (stringData_inj (jstr_inj (List.append_cancel_right heq)))
    · intro quality' hne heq
      simp only [payload_json, List.append_assoc] at heq
      iterate 13 replace heq := List.append_cancel_left heq
      exact hne (intDecimal_inj (List.append_cancel_right heq))
    · intro mtime' hne heq
      simp only [payload_json, List.append_assoc] at heq
      iterate 15 replace heq := List.append_cancel_left heq
      exact hne (intDecimal_inj (List.append_cancel_right heq))
    · intro r' hne heq
      simp only [payload_json, List.append_assoc] at heq
      iterate 17 replace heq := List.append_cancel_left heq
      exact hne (stringData_inj (jstr_inj (List.append_cancel_right heq)))
    · intro size' hne heq
      simp only [payload_json, List.append_assoc] at heq
      iterate 19 replace heq := List.append_cancel_left heq
      exact hne (natDecimal_inj (List.append_cancel_right heq))
    · intro w' hne heq
      simp only [payload_json, List.append_assoc] at heq
      iterate 21 replace heq := List.append_cancel_left heq
      exact hne (intDecimal_inj (List.append_cancel_right heq))

/-- Witness for `cache_key_deterministic_discriminating` at concrete
inputs: the key ignores the unresolved path and the profile name, and a
mode change alone changes the serialization. -/
theorem cache_key_deterministic_discriminating_witness :
    cache_key ⟨"/a", "/r/w.mp4", 7, 5⟩ 1920 1080 ⟨"balanced", 30, 24, "veryfast"⟩
        "auto" .h264 .cpu =
      cache_key ⟨"/b", "/r/w.mp4", 7, 5⟩ 1920 1080 ⟨"other", 30, 24, "veryfast"⟩
        "auto" .h264 .cpu ∧
    payload_json ⟨"/a", "/r/w.mp4", 7, 5⟩ 1920 1080 ⟨"balanced", 30, 24, "veryfast"⟩
        "auto" .h264 .cpu ≠
      payload_json ⟨"/a", "/r/w.mp4", 7, 5⟩ 1920 1080 ⟨"balanced", 30, 24, "veryfast"⟩
        "fit" .h264 .cpu := by
  constructor
  · exact cache_key_deterministic_discriminating.1 ⟨"/a", "/r/w.mp4", 7, 5⟩
      ⟨"/b", "/r/w.mp4", 7, 5⟩ 1920 1080 ⟨"balanced", 30, 24, "veryfast"⟩
      ⟨"other", 30, 24, "veryfast"⟩ "auto" .h264 .cpu rfl rfl rfl rfl rfl rfl
  · exact (cache_key_deterministic_discriminating.2 ⟨"/a", "/r/w.mp4", 7, 5⟩ 1920 1080
      ⟨"balanced", 30, 24, "veryfast"⟩ "auto" .h264 .cpu).2.2.2.2.1 "fit" (by decide)

/-! ## Theorems about `ensure_optimized` -/

/-- The temp path differs from the final artifact path (they differ in
length by the four characters of `".tmp"`). -/
theorem tmp_ne_dst (optDir key : String) (codec : Codec) :
    tmp_path optDir key codec ≠ optimized_path optDir key codec := by
  intro h
  have hlen := congrArg String.length h
  simp only [tmp_path, optimized_path, String.length_append] at hlen
  have h1 : ("/wallpaper.tmp" : String).length = 14 := rfl
  have h2 : ("/wallpaper" : String).length = 10 := rfl
  omega

/-- C2: cache idempotence of `ensure_optimized`.  With ffmpeg present and
the encoder resolved: (1) a non-empty artifact at the key's path is an
immediate hit — the same path is returned, the filesystem is untouched,
and the result does not depend on the encode oracle (no subprocess is
consulted); (2) a zero-byte or missing artifact is treated as absent and
any successful return reports `cache_hit = false`; (3) after a first call
that misses and encodes successfully (size `s > 0`), a second call with
identical arguments is a hit with the same path and performs no further
encode. -/
theorem ensure_optimized_cache_idempotent (source : Source) (width height : Int)
    (profile : OptimizeProfile) (mode : String) (codec : Codec) (encoder : Encoder)
    (optDir : String) (env : OptEnv) (chosen : Encoder) (s : Nat)
    (hf : env.ffmpeg = true)
    (hp : pick_encoder encoder codec env.probe env.hw = .ok chosen) :
    ((env.fs (optimized_path optDir
        (cache_key source width height profile mode codec chosen) codec)).getD 0 > 0 →
      ∀ e' : String → EncodeOutcome,
        ensure_optimized source width height profile mode codec encoder optDir
            ⟨env.ffmpeg, env.probe, env.hw, env.fs, e'⟩ =
          .ok (⟨optimized_path optDir
              (cache_key source width height profile mode codec chosen) codec,
            true, encoder, chosen, chosen⟩, env.fs)) ∧
    ((env.fs (optimized_path optDir
        (cache_key source width height profile mode codec chosen) codec)).getD 0 = 0 →
      ∀ r fs', ensure_optimized source width height profile mode codec encoder optDir env =
          .ok (r, fs') →
        r.cache_hit = false ∧
          r.path = optimized_path optDir
            (cache_key source width height profile mode codec chosen) codec) ∧
    ((env.fs (optimized_path optDir
        (cache_key source width height profile mode codec chosen) codec)).getD 0 = 0 →
      env.encode (if is_image_suffix source.path then image_codec_arg codec
        else video_codec_arg codec chosen) = .success s →
      0 < s →
      ∃ r1 fs1,
        ensure_optimized source width height profile mode codec encoder optDir env =
          .ok (r1, fs1) ∧
        r1.cache_hit = false ∧
        fs1 (optimized_path optDir
          (cache_key source width height profile mode codec chosen) codec) = some s ∧
        ∀ e' : String → EncodeOutcome,
          ensure_optimized source width height profile mode codec encoder optDir
              ⟨env.ffmpeg, env.probe, env.hw, fs1, e'⟩ =
            .ok (⟨optimized_path optDir
                (cache_key source width height profile mode codec chosen) codec,
              true, encoder, chosen, chosen⟩, fs1)) := by
  refine ⟨?_, ?_, ?_⟩
  · intro hhit e'
    simp only [ensure_optimized, hf, hp]
    rw [if_neg (by simp), if_pos hhit]
  · intro hmiss r fs' hok
    simp only [ensure_optimized, hf, hp] at hok
    rw [if_neg (by simp), if_neg (by omega)] at hok
    by_cases himg : is_image_suffix source.path
    · rw [if_pos himg] at hok
      rcases henc : env.encode (image_codec_arg codec) with s' | p | p <;> rw [henc] at hok
      · simp only [Except.ok.injEq, Prod.mk.injEq] at hok
        rw [← hok.1]
        exact ⟨rfl, rfl⟩
      · exact absurd hok (by simp)
      · exact absurd hok (by simp)
    · rw [if_neg himg] at hok
      rcases henc : env.encode (video_codec_arg codec chosen) with s' | p | p <;>
        rw [henc] at hok
      · simp only [Except.ok.injEq, Prod.mk.injEq] at hok
        rw [← hok.1]
        exact ⟨rfl, rfl⟩
      · exact absurd hok (by simp)
      · exact absurd hok (by simp)
  · intro hmiss henc hs
    by_cases himg : is_image_suffix source.path
    · rw [if_pos himg] at henc
      have hcall : ensure_optimized source width height profile mode codec encoder optDir
          env = .ok (⟨optimized_path optDir
            (cache_key source width height profile mode codec chosen) codec,
          false, encoder, chosen, .cpu⟩,
          fsUpdate (fsUpdate (fsUpdate env.fs
              (tmp_path optDir (cache_key source width height profile mode codec chosen)
                codec) (some s))
              (tmp_path optDir (cache_key source width height profile mode codec chosen)
                codec) none)
            (optimized_path optDir (cache_key source width height profile mode codec chosen)
              codec) (some s)) := by
        simp only [ensure_optimized, hf, hp]
        rw [if_neg (by simp), if_neg (by omega), if_pos himg, henc]
      refine ⟨_, _, hcall, rfl, ?_, ?_⟩
      · simp [fsUpdate]
      · intro e'
        simp only [ensure_optimized, hf, hp]
        rw [if_neg (by simp), if_pos (by simp [fsUpdate]; omega)]
    · rw [if_neg himg] at henc
      have hcall : ensure_optimized source width height profile mode codec encoder optDir
          env = .ok (⟨optimized_path optDir
            (cache_key source width height profile mode codec chosen) codec,
          false, encoder, chosen, chosen⟩,
          fsUpdate (fsUpdate (fsUpdate env.fs
              (tmp_path optDir (cache_key source width height profile mode codec chosen)
                codec) (some s))
              (tmp_path optDir (cache_key source width height profile mode codec chosen)
                codec) none)
            (optimized_path optDir (cache_key source width height profile mode codec chosen)
              codec) (some s)) := by
        simp only [ensure_optimized, hf, hp]
        rw [if_neg (by simp), if_neg (by omega), if_neg himg, henc]
      refine ⟨_, _, hcall, rfl, ?_, ?_⟩
      · simp [fsUpdate]
      · intro e'
        simp only [ensure_optimized, hf, hp]
        rw [if_neg (by simp), if_pos (by simp [fsUpdate]; omega)]

/-- Witness for `ensure_optimized_cache_idempotent` at concrete inputs:
a first miss-and-encode followed by a guaranteed hit. -/
theorem ensure_optimized_cache_idempotent_witness :
    ∃ r1 fs1,
      ensure_optimized ⟨"/w.mp4", "/w.mp4", 9, 0⟩ 1920 1080 BALANCED "auto" .h264 .cpu
          "/opt" ⟨true, .error (), ⟨false, false⟩, fun _ => none, fun _ => .success 5⟩ =
        .ok (r1, fs1) ∧
      r1.cache_hit = false ∧
      fs1 (optimized_path "/opt"
        (cache_key ⟨"/w.mp4", "/w.mp4", 9, 0⟩ 1920 1080 BALANCED "auto" .h264 .cpu)
        .h264) = some 5 ∧
      ∀ e' : String → EncodeOutcome,
        ensure_optimized ⟨"/w.mp4", "/w.mp4", 9, 0⟩ 1920 1080 BALANCED "auto" .h264 .cpu
            "/opt" ⟨true, .error (), ⟨false, false⟩, fs1, e'⟩ =
          .ok (⟨optimized_path "/opt"
              (cache_key ⟨"/w.mp4", "/w.mp4", 9, 0⟩ 1920 1080 BALANCED "auto" .h264 .cpu)
              .h264, true, .cpu, .cpu, .cpu⟩, fs1) := by
  exact (ensure_optimized_cache_idempotent ⟨"/w.mp4", "/w.mp4", 9, 0⟩ 1920 1080 BALANCED
    "auto" .h264 .cpu "/opt"
    ⟨true, .error (), ⟨false, false⟩, fun _ => none, fun _ => .success 5⟩ .cpu 5
    rfl rfl).2.2 rfl rfl (by norm_num)

/-- The source and environment of the C7 counterexample: a still-image
source, an empty cache, and an encode that fails leaving a 3-byte partial
temp file. -/
def c7_src : Source := ⟨"/home/user/pic.png", "/home/user/pic.png", 10, 0⟩

/-- Environment for the C7 counterexample. -/
def c7_env : OptEnv :=
  ⟨true, .error (), ⟨false, false⟩, fun _ => none, fun _ => .failed (some 3)⟩

/-- The temp path of the C7 counterexample. -/
def c7_tmp : String :=
  tmp_path "/opt" (cache_key c7_src 100 100 BALANCED "auto" .h264 .cpu) .h264

/-- C7 counterexample: for a still-image source whose encode fails leaving
a partial temp file, `ensure_optimized` propagates the error but does
*not* remove the temp file — after the call the temp path still holds the
3-byte partial file, because the image branch has no cleanup handler. -/
theorem ensure_optimized_image_failure_keeps_temp :
    ensure_optimized c7_src 100 100 BALANCED "auto" .h264 .cpu "/opt" c7_env =
      .error ("ffmpeg failed", fsUpdate c7_env.fs c7_tmp (some 3)) ∧
    fsUpdate c7_env.fs c7_tmp (some 3) c7_tmp = some 3 ∧
    some 3 ≠ (none : Option Nat) := by
  refine ⟨rfl, ?_, by decide⟩
  simp [fsUpdate]

/-- C7 (amended): on a cache miss, `ensure_optimized` writes to a temp
path beside the final path and renames into place only on success; on any
encode failure — including user interruption, which is converted into an
ordinary `RuntimeError` — the error is propagated and the final artifact
path is left untouched, so the cache stays in the miss state.  For video
sources the temp file is removed on failure; for still-image sources the
temp file is left behind (no cleanup in the image branch). -/
theorem ensure_optimized_temp_handling (source : Source) (width height : Int)
    (profile : OptimizeProfile) (mode : String) (codec : Codec) (encoder : Encoder)
    (optDir : String) (env : OptEnv) (chosen : Encoder) (p : Option Nat) (s : Nat)
    (hf : env.ffmpeg = true)
    (hp : pick_encoder encoder codec env.probe env.hw = .ok chosen)
    (hmiss : (env.fs (optimized_path optDir
      (cache_key source width height profile mode codec chosen) codec)).getD 0 = 0) :
    (is_image_suffix source.path = false →
      (env.encode (video_codec_arg codec chosen) = .failed p →
        ∃ fs', ensure_optimized source width height profile mode codec encoder optDir env =
            .error ("ffmpeg failed", fs') ∧
          fs' (tmp_path optDir
            (cache_key source width height profile mode codec chosen) codec) = none ∧
          fs' (optimized_path optDir
              (cache_key source width height profile mode codec chosen) codec) =
            env.fs (optimized_path optDir
              (cache_key source width height profile mode codec chosen) codec)) ∧
      (env.encode (video_codec_arg codec chosen) = .interrupted p →
        ∃ fs', ensure_optimized source width height profile mode codec encoder optDir env =
            .error ("Encoding interrupted by user.", fs') ∧
          fs' (tmp_path optDir
            (cache_key source width height profile mode codec chosen) codec) = none ∧
          fs' (optimized_path optDir
              (cache_key source width height profile mode codec chosen) codec) =
            env.fs (optimized_path optDir
              (cache_key source width height profile mode codec chosen) codec)) ∧
      (env.encode (video_codec_arg codec chosen) = .success s →
        ∃ r fs', ensure_optimized source width height profile mode codec encoder optDir env =
            .ok (r, fs') ∧
          fs' (optimized_path optDir
            (cache_key source width height profile mode codec chosen) codec) = some s ∧
          fs' (tmp_path optDir
            (cache_key source width height profile mode codec chosen) codec) = none)) ∧
    (is_image_suffix source.path = true →
      (env.encode (image_codec_arg codec) = .failed p →
        ∃ fs', ensure_optimized source width height profile mode codec encoder optDir env =
            .error ("ffmpeg failed", fs') ∧
          fs' (tmp_path optDir
            (cache_key source width height profile mode codec chosen) codec) = p ∧
          fs' (optimized_path optDir
              (cache_key source width height profile mode codec chosen) codec) =
            env.fs (optimized_path optDir
              (cache_key source width height profile mode codec chosen) codec)) ∧
      (env.encode (image_codec_arg codec) = .interrupted p →
        ∃ fs', ensure_optimized source width height profile mode codec encoder optDir env =
            .error ("Encoding interrupted by user.", fs') ∧
          fs' (tmp_path optDir
            (cache_key source width height profile mode codec chosen) codec) = p ∧
          fs' (optimized_path optDir
              (cache_key source width height profile mode codec chosen) codec) =
            env.fs (optimized_path optDir
              (cache_key source width height profile mode codec chosen) codec))) := by
  have hne := tmp_ne_dst optDir
    (cache_key source width height profile mode codec chosen) codec
  have hdt : optimized_path optDir
      (cache_key source width height profile mode codec chosen) codec ≠
      tmp_path optDir (cache_key source width height profile mode codec chosen) codec :=
    fun hc => absurd hc.symm hne
  constructor
  · intro himg
    refine ⟨?_, ?_, ?_⟩
    · intro henc
      have hcall : ensure_optimized source width height profile mode codec encoder optDir
          env = .error ("ffmpeg failed",
          fsUpdate (fsUpdate env.fs
            (tmp_path optDir (cache_key source width height profile mode codec chosen)
              codec) p)
            (tmp_path optDir (cache_key source width height profile mode codec chosen)
              codec) none) := by
        simp only [ensure_optimized, hf, hp]
        rw [if_neg (by simp), if_neg (by omega), if_neg (by simp [himg]), henc]
      refine ⟨_, hcall, ?_, ?_⟩
      · simp [fsUpdate]
      · simp only [fsUpdate]
        rw [if_neg hdt, if_neg hdt]
    · intro henc
      have hcall : ensure_optimized source width height profile mode codec encoder optDir
          env = .error ("Encoding interrupted by user.",
          fsUpdate (fsUpdate env.fs
            (tmp_path optDir (cache_key source width height profile mode codec chosen)
              codec) p)
            (tmp_path optDir (cache_key source width height profile mode codec chosen)
              codec) none) := by
        simp only [ensure_optimized, hf, hp]
        rw [if_neg (by simp), if_neg (by omega), if_neg (by simp [himg]), henc]
      refine ⟨_, hcall, ?_, ?_⟩
      · simp [fsUpdate]
      · simp only [fsUpdate]
        rw [if_neg hdt, if_neg hdt]
    · intro henc
      have hcall : ensure_optimized source width height profile mode codec encoder optDir
          env = .ok (⟨optimized_path optDir
            (cache_key source width height profile mode codec chosen) codec,
          false, encoder, chosen, chosen⟩,
          fsUpdate (fsUpdate (fsUpdate env.fs
              (tmp_path optDir (cache_key source width height profile mode codec chosen)
                codec) (some s))
              (tmp_path optDir (cache_key source width height profile mode codec chosen)
                codec) none)
            (optimized_path optDir (cache_key source width height profile mode codec chosen)
              codec) (some s)) := by
        simp only [ensure_optimized, hf, hp]
        rw [if_neg (by simp), if_neg (by omega), if_neg (by simp [himg]), henc]
      refine ⟨_, _, hcall, ?_, ?_⟩
      · simp [fsUpdate]
      · simp only [fsUpdate]
        rw [if_neg hne]
        simp
  · intro himg
    refine ⟨?_, ?_⟩
    · intro henc
      have hcall : ensure_optimized source width height profile mode codec encoder optDir
          env = .error ("ffmpeg failed",
          fsUpdate env.fs
            (tmp_path optDir (cache_key source width height profile mode codec chosen)
              codec) p) := by
        simp only [ensure_optimized, hf, hp]
        rw [if_neg (by simp), if_neg (by omega), if_pos himg, henc]
      refine ⟨_, hcall, ?_, ?_⟩
      · simp [fsUpdate]
      · simp only [fsUpdate]
        rw [if_neg hdt]
    · intro henc
      have hcall : ensure_optimized source width height profile mode codec encoder optDir
          env = .error ("Encoding interrupted by user.",
          fsUpdate env.fs
            (tmp_path optDir (cache_key source width height profile mode codec chosen)
              codec) p) := by
        simp only [ensure_optimized, hf, hp]
        rw [if_neg (by simp), if_neg (by omega), if_pos himg, henc]
      refine ⟨_, hcall, ?_, ?_⟩
      · simp [fsUpdate]
      · simp only [fsUpdate]
        rw [if_neg hdt]

/-- Witness for `ensure_optimized_temp_handling` at concrete inputs:
a failing video encode removes its temp file and leaves the artifact
path absent. -/
theorem ensure_optimized_temp_handling_witness :
    ∃ fs', ensure_optimized ⟨"/w.mp4", "/w.mp4", 9, 0⟩ 640 480 ECO "auto" .vp9 .cpu
        "/opt" ⟨true, .error (), ⟨false, false⟩, fun _ => none, fun _ => .failed (some 7)⟩ =
      .error ("ffmpeg failed", fs') ∧
      fs' (tmp_path "/opt"
        (cache_key ⟨"/w.mp4", "/w.mp4", 9, 0⟩ 640 480 ECO "auto" .vp9 .cpu) .vp9) = none ∧
      fs' (optimized_path "/opt"
          (cache_key ⟨"/w.mp4", "/w.mp4", 9, 0⟩ 640 480 ECO "auto" .vp9 .cpu) .vp9) =
        (⟨true, .error (), ⟨false, false⟩, fun _ => none, fun _ =>
          EncodeOutcome.failed (some 7)⟩ : OptEnv).fs
          (optimized_path "/opt"
            (cache_key ⟨"/w.mp4", "/w.mp4", 9, 0⟩ 640 480 ECO "auto" .vp9 .cpu) .vp9) := by
  exact ((ensure_optimized_temp_handling ⟨"/w.mp4", "/w.mp4", 9, 0⟩ 640 480 ECO "auto"
    .vp9 .cpu "/opt"
    ⟨true, .error (), ⟨false, false⟩, fun _ => none, fun _ => .failed (some 7)⟩
    .cpu (some 7) 0 rfl rfl rfl).1 (by decide)).1 rfl

/-- C10: for every still-image source on a cache miss, `ensure_optimized`
encodes with a software encoder (the image branch passes `libx264` /
`libaom-av1` / `libvpx-vp9` to ffmpeg regardless of the chosen encoder)
and reports `used = "cpu"`; in particular for codec av1 explicitly
requested with vaapi, the returned result has `chosen = vaapi` but
`used = cpu`, so `chosen ≠ used` is possible. -/
theorem ensure_optimized_image_software_encoder (source : Source) (width height : Int)
    (profile : OptimizeProfile) (mode : String) (codec : Codec) (encoder : Encoder)
    (optDir : String) (env : OptEnv) (chosen : Encoder)
    (hf : env.ffmpeg = true)
    (hp : pick_encoder encoder codec env.probe env.hw = .ok chosen)
    (himg : is_image_suffix source.path = true)
    (hmiss : (env.fs (optimized_path optDir
      (cache_key source width height profile mode codec chosen) codec)).getD 0 = 0) :
    image_codec_arg codec ∈ SOFTWARE_ARGS ∧
    (∀ r fs', ensure_optimized source width height profile mode codec encoder optDir env =
        .ok (r, fs') →
      r.used = .cpu ∧ r.chosen = chosen ∧ r.cache_hit = false) ∧
    ((ensure_optimized ⟨"/a.png", "/a.png", 1, 0⟩ 1 1 BALANCED "auto" .av1 .vaapi "/o"
        ⟨true, .error (), ⟨true, true⟩, fun _ => none, fun _ => .success 7⟩).toOption.map
      (fun x => (x.1.chosen, x.1.used)) = some (.vaapi, .cpu)) ∧
    Encoder.vaapi ≠ Encoder.cpu := by
  refine ⟨?_, ?_, rfl, by decide⟩
  · cases codec <;> decide
  · intro r fs' hok
    simp only [ensure_optimized, hf, hp] at hok
    rw [if_neg (by simp), if_neg (by omega), if_pos himg] at hok
    rcases henc : env.encode (image_codec_arg codec) with s' | pp | pp <;> rw [henc] at hok
    · simp only [Except.ok.injEq, Prod.mk.injEq] at hok
      rw [← hok.1]
      exact ⟨rfl, rfl, rfl⟩
    · exact absurd hok (by simp)
    · exact absurd hok (by simp)

/-- Witness for `ensure_optimized_image_software_encoder` at concrete
inputs. -/
theorem ensure_optimized_image_software_encoder_witness :
    image_codec_arg .av1 ∈ SOFTWARE_ARGS := by
  exact (ensure_optimized_image_software_encoder ⟨"/a.png", "/a.png", 1, 0⟩ 1 1 BALANCED
    "auto" .av1 .vaapi "/o"
    ⟨true, .error (), ⟨true, true⟩, fun _ => none, fun _ => .success 7⟩ .vaapi
    rfl rfl (by decide) rfl).1

end Hyprwall
